import Mathlib

/-!
Verification of the communication-intrinsic operator catalog in
`src/op/comm.{h,cc}` (namespace `tvm::tl`).

The file `comm.cc` expands the macro `TIR_DEFINE_TL_BUILTIN(OpName)` for the
eight operators `comm_put`, `comm_broadcast`, `comm_allgather`, `comm_reduce`,
`comm_barrier`, `comm_fence`, `CoreId`, `comm_current_core`.  Each expansion
produces
  * an accessor `const Op &OpName()` whose body is
    `static const Op &op = Op::Get("tl." #OpName); return op;` — a cached
    read-only registry lookup, and
  * a file-scope registration statement
    `TVM_REGISTER_OP("tl." #OpName).set_attr("TScriptPrinterName", #OpName)`
    continued by `.set_num_inputs(n)` and
    `.set_attr("TCallEffectKind", Integer(CallEffectKind::kOpaque))`.
Being file-scope object initializations, the registration statements run at
static module initialization (when the translation unit is loaded), before any
accessor can be called.

The operator registry itself (TVM's `Op` / `OpRegEntry` machinery) is an
external dependency whose sources are not part of this repository; its
behaviour is modelled from the specification (section 4.1): an identity-per-name
interning table, idempotent register-or-get, conflict-detecting attribute
binding, and option-valued attribute lookup.
-/

set_option autoImplicit false

namespace TL

/-- Modelled from the spec: the effect-classification tag vocabulary of the
host registry (TVM's `CallEffectKind`).  The catalog under verification uses
exactly one value, the fully opaque one (`kOpaqueTag` here, written
`CallEffectKind::kOpaque` in the source); the remaining tags stand for the
other classifications the optimizer distinguishes. -/
inductive CallEffectKind where
  | kPureTag
  | kReadStateTag
  | kUpdateStateTag
  | kOpaqueTag
deriving DecidableEq, Repr

/-- An attribute value bound to an operator: the catalog binds a string
(display name for the script printer) and an effect-classification tag. -/
inductive AttrValue where
  | str (s : String)
  | effect (k : CallEffectKind)
deriving DecidableEq, Repr

/-- One registry entry: the operator identity.  Identities carry the unique
registered name (identity comparison is name comparison, per the spec), the
`num_inputs` field set by `set_num_inputs` (`-1` is the variable-arity
sentinel), and the attribute bindings keyed by attribute kind. -/
structure OpEntry where
  name : String
  num_inputs : Int
  attrs : List (String × AttrValue)
deriving DecidableEq, Repr

/-- Modelled from the spec: the process-wide name-keyed operator registry,
an interning table from registered name to operator identity. -/
structure Registry where
  table : List (String × OpEntry)
deriving DecidableEq, Repr

/-- Modelled from the spec: `lookup(name) -> Identity option`, pure read
access that does not create. -/
def Registry.lookup (R : Registry) (key : String) : Option OpEntry :=
  (R.table.find? (fun p => p.1 == key)).map Prod.snd

/-- The registry of a process in which no registration has run yet. -/
def emptyRegistry : Registry := ⟨[]⟩

/-- Modelled from the spec: `register_or_get(name)` — returns the unique
identity for `name`, creating it on first call; redundant calls are no-ops.
A fresh entry starts with the variable-arity default `-1` and no attributes. -/
def Registry.registerOrGet (R : Registry) (key : String) : Registry :=
  match R.lookup key with
  | some _ => R
  | none => ⟨R.table ++ [(key, ⟨key, -1, []⟩)]⟩

/-- Rewrite the entry bound to `key` (if any) in place; every other binding is
kept as it is. -/
def Registry.update (R : Registry) (key : String) (f : OpEntry → OpEntry) : Registry :=
  ⟨R.table.map (fun p => if p.1 == key then (p.1, f p.2) else p)⟩

/-- Modelled from the spec: `set_attribute(identity, kind, value)` — binds
metadata to a registered identity.  Rebinding an identical value is a no-op;
rebinding a different value for the same `(identity, kind)` pair is the fatal
conflicting-registration error; the identity must already be registered. -/
def Registry.setAttr (R : Registry) (key kind : String) (v : AttrValue) :
    Except String Registry :=
  match R.lookup key with
  | none => .error ("no operator named " ++ key)
  | some e =>
    match e.attrs.find? (fun q => q.1 == kind) with
    | none => .ok (R.update key (fun e0 => { e0 with attrs := e0.attrs ++ [(kind, v)] }))
    | some q =>
      if q.2 = v then .ok R
      else .error ("conflicting attribute " ++ kind ++ " for operator " ++ key)

/-- The `set_num_inputs(n)` call on the entry bound to `key` (the host
registry stores the expected argument count as a plain field of the operator,
`-1` meaning variable). -/
def Registry.setNumInputs (R : Registry) (key : String) (n : Int) : Registry :=
  R.update key (fun e => { e with num_inputs := n })

/-- Modelled from the spec: `get_attribute(identity, kind) -> value option` —
the bound value if present, else the explicit absent result `none`. -/
def Registry.getAttr (R : Registry) (key kind : String) : Option AttrValue :=
  (R.lookup key).bind (fun e => (e.attrs.find? (fun q => q.1 == kind)).map Prod.snd)

/-- One registration statement of `comm.cc`, as expanded from
`TIR_DEFINE_TL_BUILTIN(OpName).set_num_inputs(n).set_attr("TCallEffectKind", …)`:
register-or-get the prefixed name `"tl." ++ bare`, bind the script-printer
display name to the bare name, set the expected input count, and bind the
effect classification. -/
def registerCommOp (R : Registry) (bare : String) (n : Int) (eff : CallEffectKind) :
    Except String Registry :=
  match (R.registerOrGet ("tl." ++ bare)).setAttr ("tl." ++ bare)
      "TScriptPrinterName" (AttrValue.str bare) with
  | .error msg => .error msg
  | .ok R2 =>
    (R2.setNumInputs ("tl." ++ bare) n).setAttr ("tl." ++ bare)
      "TCallEffectKind" (AttrValue.effect eff)

/-- The catalog of `comm.cc`, in file order: each operator's bare name with the
argument to its `set_num_inputs` call (`-1` = variable arity). -/
def commOps : List (String × Int) :=
  [("comm_put", -1), ("comm_broadcast", -1), ("comm_allgather", -1),
   ("comm_reduce", -1), ("comm_barrier", -1), ("comm_fence", 0),
   ("CoreId", 1), ("comm_current_core", 0)]

/-- Run the eight file-scope registration statements of `comm.cc` (in file
order) on a given registry state: this is what C++ static module
initialization of the translation unit executes.  All eight bind the opaque
effect classification. -/
def staticInitOn (R : Registry) : Except String Registry :=
  commOps.foldlM (fun A p => registerCommOp A p.1 p.2 CallEffectKind.kOpaqueTag) R

/-- The outcome of static initialization starting from the empty registry. -/
def staticInitResult : Except String Registry := staticInitOn emptyRegistry

/-- The registry as it stands after static module initialization (the spec's
"initialized" state); static initialization succeeds, see
`staticInitResult_ok`. -/
def initRegistry : Registry := staticInitResult.toOption.getD emptyRegistry

/-- The body of every accessor generated by `TIR_DEFINE_TL_BUILTIN`:
`Op::Get("tl." #OpName)`, a registry lookup of the prefixed name.  It only
reads; the cached reference makes repeated calls return the same lookup. -/
def accessor (R : Registry) (bare : String) : Option OpEntry :=
  R.lookup ("tl." ++ bare)

/-- Identity comparison is by registered name (reference/name equality per the
spec): the identity of an entry is its unique name. -/
def identityOf (e : OpEntry) : String := e.name

/-- The eight exported accessors of `comm.h`, each specialised from the
macro-generated body. -/
def comm_put (R : Registry) : Option OpEntry := accessor R "comm_put"

/-- Accessor `comm_broadcast` from `comm.h`. -/
def comm_broadcast (R : Registry) : Option OpEntry := accessor R "comm_broadcast"

/-- Accessor `comm_allgather` from `comm.h`. -/
def comm_allgather (R : Registry) : Option OpEntry := accessor R "comm_allgather"

/-- Accessor `comm_reduce` from `comm.h`. -/
def comm_reduce (R : Registry) : Option OpEntry := accessor R "comm_reduce"

/-- Accessor `comm_barrier` from `comm.h`. -/
def comm_barrier (R : Registry) : Option OpEntry := accessor R "comm_barrier"

/-- Accessor `comm_fence` from `comm.h`. -/
def comm_fence (R : Registry) : Option OpEntry := accessor R "comm_fence"

/-- Accessor `CoreId` from `comm.h`. -/
def CoreId (R : Registry) : Option OpEntry := accessor R "CoreId"

/-- Accessor `comm_current_core` from `comm.h`. -/
def comm_current_core (R : Registry) : Option OpEntry := accessor R "comm_current_core"

/-- The arity constraint an entry reports: `num_inputs = -1` is the sentinel
for "variable, any count ≥ 0 accepted", any other value is a fixed exact
argument count. -/
inductive Arity where
  | fixed (n : Nat)
  | anyCount
deriving DecidableEq, Repr

/-- Read an entry's arity constraint off its `num_inputs` field. -/
def OpEntry.arity (e : OpEntry) : Arity :=
  if e.num_inputs = -1 then Arity.anyCount else Arity.fixed e.num_inputs.toNat

/-- Observable events of the module's lifetime: C++ static initialization of
the translation unit (running the eight file-scope registration statements),
an accessor call (`Op::Get`, read-only), or a repeated execution of one
registration statement. -/
inductive Event where
  | staticInit
  | access (bare : String)
  | reRegister (bare : String) (n : Int)
deriving DecidableEq, Repr

/-- How one event transforms the registry; a registration conflict aborts. -/
def step (s : Except String Registry) (e : Event) : Except String Registry :=
  match s, e with
  | .ok R, .staticInit => staticInitOn R
  | .ok R, .access _ => .ok R
  | .ok R, .reRegister b n => registerCommOp R b n CallEffectKind.kOpaqueTag
  | .error m, _ => .error m

/-- The registry produced by a sequence of events starting from the empty
registry of a fresh process. -/
def runTrace (tr : List Event) : Except String Registry :=
  tr.foldl step (Except.ok emptyRegistry)

/-- An event the catalog itself can produce: any accessor call, static
initialization, or a re-run of one of the eight registration statements with
its own table row. -/
def benignEvent : Event → Bool
  | .reRegister b n => commOps.contains (b, n)
  | _ => true

deriving instance DecidableEq for Except

/-- Static module initialization of `comm.cc` succeeds: the eight registration
statements run without any conflicting-registration error and produce the
initialized registry. -/
theorem staticInitResult_ok : staticInitResult = Except.ok initRegistry := by decide

/-- Claim C1: for each of the eight operators, `get_attribute` on its identity
for the effect-classification kind (`"TCallEffectKind"`) returns the opaque
classification, and `get_attribute` for the display-name kind
(`"TScriptPrinterName"`) returns the bare operator name without the `"tl."`
prefix. -/
theorem attr_round_trip (p : String × Int) (hp : p ∈ commOps) :
    initRegistry.getAttr ("tl." ++ p.1) "TCallEffectKind"
        = some (AttrValue.effect CallEffectKind.kOpaqueTag) ∧
    initRegistry.getAttr ("tl." ++ p.1) "TScriptPrinterName"
        = some (AttrValue.str p.1) := by
  revert p hp
  decide

/-- Witness for `attr_round_trip` at the `comm_put` row of the catalog. -/
theorem attr_round_trip_witness :
    initRegistry.getAttr ("tl." ++ "comm_put") "TCallEffectKind"
        = some (AttrValue.effect CallEffectKind.kOpaqueTag) ∧
    initRegistry.getAttr ("tl." ++ "comm_put") "TScriptPrinterName"
        = some (AttrValue.str "comm_put") :=
  attr_round_trip ("comm_put", -1) (by decide)

/-- Claim C2: the arity bound to each operator is fixed 0 for `comm_fence` and
`comm_current_core`, fixed 1 for `CoreId`, and the variable-arity sentinel
(`num_inputs = -1`, any count accepted) for the remaining five operators. -/
theorem arity_fidelity :
    ((initRegistry.lookup "tl.comm_fence").map OpEntry.arity = some (Arity.fixed 0)) ∧
    ((initRegistry.lookup "tl.comm_current_core").map OpEntry.arity = some (Arity.fixed 0)) ∧
    ((initRegistry.lookup "tl.CoreId").map OpEntry.arity = some (Arity.fixed 1)) ∧
    (∀ b ∈ ["comm_put", "comm_broadcast", "comm_allgather", "comm_reduce", "comm_barrier"],
      (initRegistry.lookup ("tl." ++ b)).map OpEntry.num_inputs = some (-1) ∧
      (initRegistry.lookup ("tl." ++ b)).map OpEntry.arity = some Arity.anyCount) := by
  decide

/-- Claim C6: re-registering the already-registered name `"comm_put"` with a
different effect classification (here a non-opaque tag) fails with the
conflicting-registration error instead of silently succeeding with one of the
two definitions. -/
theorem conflicting_registration_fails :
    registerCommOp initRegistry "comm_put" (-1) CallEffectKind.kPureTag
      = Except.error ("conflicting attribute TCallEffectKind for operator tl.comm_put") := by
  decide

/-- Claim C8: every accessor call on the initialized registry succeeds —
`Op::Get` on the prefixed name finds a registered identity (never the
not-found branch, never a null identity), and the identity carries the
operator's registered name. -/
theorem accessor_always_succeeds (p : String × Int) (hp : p ∈ commOps) :
    (accessor initRegistry p.1).map identityOf = some ("tl." ++ p.1) := by
  revert p hp
  decide

/-- Witness for `accessor_always_succeeds` at the `comm_current_core` row. -/
theorem accessor_always_succeeds_witness :
    (accessor initRegistry "comm_current_core").map identityOf
      = some ("tl." ++ "comm_current_core") :=
  accessor_always_succeeds ("comm_current_core", 0) (by decide)

/-- Claim C9: every operator is keyed in the registry under the prefixed name
`"tl." ++ bare`, so the prefixed lookup finds an identity while a lookup by
the bare name alone returns the not-found result. -/
theorem prefixed_registry_keys (p : String × Int) (hp : p ∈ commOps) :
    (initRegistry.lookup ("tl." ++ p.1)).isSome = true ∧
    initRegistry.lookup p.1 = none := by
  revert p hp
  decide

/-- Witness for `prefixed_registry_keys` at the `comm_put` row. -/
theorem prefixed_registry_keys_witness :
    (initRegistry.lookup ("tl." ++ "comm_put")).isSome = true ∧
    initRegistry.lookup "comm_put" = none :=
  prefixed_registry_keys ("comm_put", -1) (by decide)

/-- Re-running any of the eight registration statements on the initialized
registry is a no-op: every attribute it would bind is already bound with the
identical value. -/
lemma registerCommOp_noop (p : String × Int) (hp : p ∈ commOps) :
    registerCommOp initRegistry p.1 p.2 CallEffectKind.kOpaqueTag
      = Except.ok initRegistry := by
  revert p hp
  decide

/-- Re-running all eight registration statements on the initialized registry
is a no-op. -/
lemma staticInitOn_noop : staticInitOn initRegistry = Except.ok initRegistry := by decide

/-- Any benign event keeps the initialized registry exactly as it is. -/
lemma step_benign (e : Event) (h : benignEvent e = true) :
    step (Except.ok initRegistry) e = Except.ok initRegistry := by
  cases e with
  | staticInit => exact staticInitOn_noop
  | access b => rfl
  | reRegister b n =>
      have hmem : (b, n) ∈ commOps := by simpa [benignEvent] using h
      exact registerCommOp_noop (b, n) hmem

/-- A sequence of benign events keeps the initialized registry unchanged. -/
lemma foldl_step_benign (tr : List Event) (h : ∀ e ∈ tr, benignEvent e = true) :
    tr.foldl step (Except.ok initRegistry) = Except.ok initRegistry := by
  induction tr with
  | nil => rfl
  | cons e tr ih =>
      rw [List.foldl_cons, step_benign e (h e (List.mem_cons_self e tr))]
      exact ih (fun e' he' => h e' (List.mem_cons_of_mem e he'))

/-- After static initialization, any sequence of benign events leaves the
registry in the initialized state. -/
lemma runTrace_benign (tr : List Event) (h : ∀ e ∈ tr, benignEvent e = true) :
    runTrace (Event.staticInit :: tr) = Except.ok initRegistry := by
  have h0 : step (Except.ok emptyRegistry) Event.staticInit = Except.ok initRegistry := by
    decide
  unfold runTrace
  rw [List.foldl_cons, h0]
  exact foldl_step_benign tr h

/-- Claim C3: for every one of the eight operator names, registering the name
any number of times and calling accessors any number of times, in any order
(any two traces of benign events after static initialization), always yields
one and the same identity: the accessor's result is the same after either
trace, and for each catalog row it is the registered identity named by the
prefixed operator name. -/
theorem same_identity_any_order (tr tr2 : List Event)
    (h : ∀ e ∈ tr, benignEvent e = true) (h2 : ∀ e ∈ tr2, benignEvent e = true) :
    (∀ bare : String,
      (runTrace (Event.staticInit :: tr)).map (fun R => (accessor R bare).map identityOf)
        = (runTrace (Event.staticInit :: tr2)).map
            (fun R => (accessor R bare).map identityOf)) ∧
    (∀ p ∈ commOps,
      (runTrace (Event.staticInit :: tr)).map (fun R => (accessor R p.1).map identityOf)
        = Except.ok (some ("tl." ++ p.1))) := by
  rw [runTrace_benign tr h, runTrace_benign tr2 h2]
  refine ⟨fun bare => rfl, ?_⟩
  decide

/-- Witness for `same_identity_any_order`: the `comm_barrier` accessor is
called twice around a repeated `comm_barrier` registration in one trace and
not at all in the other; every name still resolves to the same identity. -/
theorem same_identity_any_order_witness :
    (∀ bare : String,
      (runTrace (Event.staticInit ::
          [Event.access "comm_barrier", Event.reRegister "comm_barrier" (-1),
           Event.access "comm_barrier"])).map
          (fun R => (accessor R bare).map identityOf)
        = (runTrace (Event.staticInit :: [Event.staticInit])).map
            (fun R => (accessor R bare).map identityOf)) ∧
    (∀ p ∈ commOps,
      (runTrace (Event.staticInit ::
          [Event.access "comm_barrier", Event.reRegister "comm_barrier" (-1),
           Event.access "comm_barrier"])).map
          (fun R => (accessor R p.1).map identityOf)
        = Except.ok (some ("tl." ++ p.1))) :=
  same_identity_any_order
    [Event.access "comm_barrier", Event.reRegister "comm_barrier" (-1),
     Event.access "comm_barrier"]
    [Event.staticInit] (by decide) (by decide)

/-- Claim C4: for any two distinct operator names among the eight, the
identities returned by their accessors are distinct. -/
theorem distinct_names_distinct_identities (p : String × Int) (hp : p ∈ commOps)
    (q : String × Int) (hq : q ∈ commOps) (hne : p.1 ≠ q.1) :
    (accessor initRegistry p.1).map identityOf
      ≠ (accessor initRegistry q.1).map identityOf := by
  revert p hp q hq hne
  decide

/-- Witness for `distinct_names_distinct_identities` at `comm_put` and
`comm_barrier`. -/
theorem distinct_names_distinct_identities_witness :
    (accessor initRegistry "comm_put").map identityOf
      ≠ (accessor initRegistry "comm_barrier").map identityOf :=
  distinct_names_distinct_identities ("comm_put", -1) (by decide)
    ("comm_barrier", -1) (by decide) (by decide)

/-- Counterexample to claim C5 as stated: in the trace that contains static
module initialization and no accessor call at all, the operator
`"tl.comm_put"` is already registered — registration happens at static
initialization (the file-scope `TVM_REGISTER_OP` statements), which is earlier
than the first accessor call, contradicting "registration happens no earlier
than the first call of some accessor". -/
theorem registered_with_no_access_call :
    ((runTrace [Event.staticInit]).map (fun R => (R.lookup "tl.comm_put").isSome)
      = Except.ok true) ∧
    ((runTrace [Event.staticInit]).map (fun R => (R.lookup "tl.comm_put").isSome)
      ≠ Except.ok false) := by
  decide

/-- Claim C5 as amended: each operator's registration happens during static
module initialization — the file-scope `TVM_REGISTER_OP` statements run when
the translation unit is loaded, before any accessor call — and the accessor
itself never registers: an accessor call (`Op::Get` on the cached reference)
is a pure read that leaves every registry state unchanged. -/
theorem static_init_registers_accessor_only_reads :
    (∀ p ∈ commOps,
      (runTrace [Event.staticInit]).map (fun R => (R.lookup ("tl." ++ p.1)).isSome)
        = Except.ok true) ∧
    (∀ (R : Registry) (b : String), step (Except.ok R) (Event.access b) = Except.ok R) := by
  refine ⟨by decide, fun R b => rfl⟩

/-- An association-list search for a key that no element carries finds
nothing. -/
lemma find?_attrs_none {l : List (String × AttrValue)} {k : String}
    (h : ∀ q ∈ l, q.1 ≠ k) : l.find? (fun q => q.1 == k) = none := by
  induction l with
  | nil => rfl
  | cons a l ih =>
      rw [List.find?_cons_of_neg l (by simpa using h a (List.mem_cons_self a l))]
      exact ih (fun q hq => h q (List.mem_cons_of_mem a hq))

/-- Claim C7: `get_attribute` for an attribute kind never bound to one of the
eight identities — any kind other than the display name
(`"TScriptPrinterName"`) and the effect classification (`"TCallEffectKind"`)
— returns the explicit absent result `none`, never a default value. -/
theorem absent_attr_kind_none (kind : String) (h1 : kind ≠ "TScriptPrinterName")
    (h2 : kind ≠ "TCallEffectKind") (p : String × Int) (hp : p ∈ commOps) :
    initRegistry.getAttr ("tl." ++ p.1) kind = none := by
  have hkeys : ∀ q ∈ commOps,
      (initRegistry.lookup ("tl." ++ q.1)).map (fun e => e.attrs.map Prod.fst)
        = some ["TScriptPrinterName", "TCallEffectKind"] := by decide
  have hk := hkeys p hp
  unfold Registry.getAttr
  cases hL : initRegistry.lookup ("tl." ++ p.1) with
  | none => rfl
  | some e =>
      rw [hL] at hk
      simp only [Option.map_some', Option.some.injEq] at hk
      simp only [Option.some_bind]
      rw [find?_attrs_none]
      · rfl
      · intro q hq
        have hmem : q.1 ∈ e.attrs.map Prod.fst := List.mem_map_of_mem Prod.fst hq
        rw [hk] at hmem
        simp only [List.mem_cons, List.not_mem_nil, or_false] at hmem
        rcases hmem with hA | hB
        · rw [hA]; exact Ne.symm h1
        · rw [hB]; exact Ne.symm h2

/-- Witness for `absent_attr_kind_none`: the kind `"TGlobalSymbol"` was never
bound to `comm_fence`, so fetching it yields the absent result. -/
theorem absent_attr_kind_none_witness :
    initRegistry.getAttr ("tl." ++ "comm_fence") "TGlobalSymbol" = none :=
  absent_attr_kind_none "TGlobalSymbol" (by decide) (by decide) ("comm_fence", 0) (by decide)

/-- The in-place rewrite of the entry bound to one key preserves every
element's key. -/
lemma update_fst (key : String) (f : OpEntry → OpEntry) (p : String × OpEntry) :
    (if p.1 == key then (p.1, f p.2) else p).1 = p.1 := by
  split <;> rfl

/-- Rewriting the entry bound to `key` does not change what any other key
looks up. -/
lemma lookup_update_ne (R : Registry) (key m : String) (f : OpEntry → OpEntry)
    (hm : m ≠ key) : (R.update key f).lookup m = R.lookup m := by
  unfold Registry.update Registry.lookup
  rw [List.find?_map]
  have hpred : ((fun p : String × OpEntry => p.1 == m) ∘
      (fun p => if p.1 == key then (p.1, f p.2) else p))
      = (fun p : String × OpEntry => p.1 == m) := by
    funext p
    simp only [Function.comp_apply]
    rw [update_fst]
  rw [hpred]
  cases hfind : R.table.find? (fun p => p.1 == m) with
  | none => rfl
  | some a =>
      have ham : a.1 = m := by simpa using List.find?_some hfind
      have hak : (a.1 == key) = false := by
        simp only [beq_eq_false_iff_ne, ne_eq, ham]
        exact hm
      simp [hak]
      rw [if_neg (ne_of_beq_false hak)]

/-- Setting the input count of one key does not change what any other key
looks up. -/
lemma lookup_setNumInputs_ne (R : Registry) (key m : String) (n : Int)
    (hm : m ≠ key) : (R.setNumInputs key n).lookup m = R.lookup m :=
  lookup_update_ne R key m _ hm

/-- Interning one key with `register_or_get` does not change what any other
key looks up. -/
lemma lookup_registerOrGet_ne (R : Registry) (key m : String) (hm : m ≠ key) :
    (R.registerOrGet key).lookup m = R.lookup m := by
  unfold Registry.registerOrGet
  cases hkey : R.lookup key with
  | some e => rfl
  | none =>
      show (Registry.lookup ⟨R.table ++ [(key, ⟨key, -1, []⟩)]⟩ m) = R.lookup m
      unfold Registry.lookup
      rw [List.find?_append]
      have hone : List.find? (fun p : String × OpEntry => p.1 == m)
          [(key, ⟨key, -1, []⟩)] = none := by
        rw [List.find?_cons_of_neg [] (by simpa using Ne.symm hm)]
        rfl
      rw [hone, Option.or_none]

/-- A successful `set_attribute` on one key does not change what any other key
looks up. -/
lemma setAttr_frame (R R' : Registry) (key kind : String) (v : AttrValue)
    (h : R.setAttr key kind v = Except.ok R') (m : String) (hm : m ≠ key) :
    R'.lookup m = R.lookup m := by
  unfold Registry.setAttr at h
  cases hkey : R.lookup key with
  | none => rw [hkey] at h; exact Except.noConfusion h
  | some e =>
      rw [hkey] at h
      dsimp only at h
      cases hfind : e.attrs.find? (fun q => q.1 == kind) with
      | none =>
          rw [hfind] at h
          dsimp only at h
          rw [← Except.ok.inj h]
          exact lookup_update_ne R key m _ hm
      | some q =>
          rw [hfind] at h
          dsimp only at h
          by_cases hv : q.2 = v
          · rw [if_pos hv] at h
            rw [← Except.ok.inj h]
          · rw [if_neg hv] at h
            exact Except.noConfusion h

/-- Claim C10: registering one operator name with its attributes leaves every
other name's registry entry unchanged — for any key distinct from the one
being registered, its lookup (presence, identity and every bound attribute)
is the same before and after the registration. -/
theorem registration_frame (R R' : Registry) (bare : String) (n : Int)
    (eff : CallEffectKind) (h : registerCommOp R bare n eff = Except.ok R')
    (m : String) (hm : m ≠ "tl." ++ bare) :
    R'.lookup m = R.lookup m := by
  unfold registerCommOp at h
  cases hA : (R.registerOrGet ("tl." ++ bare)).setAttr ("tl." ++ bare)
      "TScriptPrinterName" (AttrValue.str bare) with
  | error msg => rw [hA] at h; exact Except.noConfusion h
  | ok R2 =>
      rw [hA] at h
      dsimp only at h
      rw [setAttr_frame _ _ _ _ _ h m hm, lookup_setNumInputs_ne _ _ _ _ hm,
        setAttr_frame _ _ _ _ _ hA m hm]
      exact lookup_registerOrGet_ne R _ m hm

/-- The registry obtained by registering a ninth operator `comm_probe` on top
of the initialized registry (used to exercise the frame property on a
registration that actually creates an entry). -/
def withProbe : Registry :=
  ⟨initRegistry.table ++
    [("tl.comm_probe",
      ⟨"tl.comm_probe", 2,
       [("TScriptPrinterName", AttrValue.str "comm_probe"),
        ("TCallEffectKind", AttrValue.effect CallEffectKind.kOpaqueTag)]⟩)]⟩

/-- Witness for `registration_frame`: registering the fresh name `comm_probe`
on the initialized registry leaves the `tl.comm_barrier` entry untouched. -/
theorem registration_frame_witness :
    withProbe.lookup "tl.comm_barrier" = initRegistry.lookup "tl.comm_barrier" :=
  registration_frame initRegistry withProbe "comm_probe" 2 CallEffectKind.kOpaqueTag
    (by decide) "tl.comm_barrier" (by decide)

end TL
